import Mathlib

/-!
Verification of the DICOM volume-reconstruction and segmentation module
(`modules/archivo.py` / `code/modules/archivo.py`).

The Python functions are shallowly embedded over exact rationals:
a 2D pixel array is a `List (List ℚ)` (rows of pixels), a 3D volume a
`List (List (List ℚ))`.  DICOM attributes that may be absent are `Option`
fields; a Python attribute access on an absent attribute raises
`AttributeError`, indexing an empty list raises `IndexError`, and a numpy
assignment of a non-broadcastable array raises `ValueError`; these are the
constructors of `PyErr` and fallible functions return `Except PyErr _`.
The `match` cascades in the fallible definitions follow Python's
left-to-right evaluation order, so the error that is returned is the
exception the Python code would raise first.
-/

deriving instance DecidableEq for Except

/-- The Python exceptions that the embedded code can raise. -/
inductive PyErr where
  | indexError
  | attributeError
  | valueError
deriving DecidableEq, Repr

/-- One decoded DICOM slice, as consumed by `CreaVolumen` / `MetadataDT`.
`pixel_array` is always present (it is the image data); every other
attribute may be absent, which `hasattr` and attribute access observe. -/
structure DicomSlice where
  pixel_array : List (List ℚ)
  RescaleIntercept : Option ℚ
  RescaleSlope : Option ℚ
  PixelSpacing : Option (ℚ × ℚ)
  SliceThickness : Option ℚ
  PatientName : Option String
  PatientAge : Option String
  PatientSex : Option String
  Modality : Option String
  AcquisitionDate : Option String
  ManufacturerModelName : Option String
  Rows : Option ℕ
  Columns : Option ℕ
deriving DecidableEq, Repr

/-- The `.shape` of a 2D numpy array built from a list of rows:
(number of rows, length of the first row). -/
def pyShape (m : List (List ℚ)) : ℕ × ℕ := (m.length, (m.headD []).length)

/-- The rows of `m` all have the length announced by `pyShape` (numpy
arrays are rectangular by construction). -/
def isRect (m : List (List ℚ)) : Bool :=
  m.all (fun r => r.length == (m.headD []).length)

/-- Computes `escala * imagen + intercepto`: numpy scalar arithmetic broadcast
elementwise over the 2D array (archivo.py line 77). -/
def calibra (escala intercepto : ℚ) (img : List (List ℚ)) : List (List ℚ) :=
  img.map (fun row => row.map (fun x => escala * x + intercepto))

/-- Whether a 2D array of shape `(a, b)` can be broadcast-assigned into a
plane of shape `(filas, columnas)` (numpy: each dimension must match or
be 1). -/
def broadcastable (filas columnas a b : ℕ) : Bool :=
  (a == filas || a == 1) && (b == columnas || b == 1)

/-- The assignment `volumen[i] = imagen` (archivo.py line 78): numpy broadcast assignment
of `img` into a `(filas, columnas)` plane.  Returns `none` (Python:
`ValueError`) when the shapes are not broadcast compatible. -/
def broadcastAssign (filas columnas : ℕ) (img : List (List ℚ)) :
    Option (List (List ℚ)) :=
  if broadcastable filas columnas (pyShape img).1 (pyShape img).2 then
    some ((List.range filas).map fun r =>
      (List.range columnas).map fun c =>
        (img.getD (if (pyShape img).1 = 1 then 0 else r) []).getD
          (if (pyShape img).2 = 1 then 0 else c) 0)
  else none

/-- The per-slice loop of `CreaVolumen` (archivo.py lines 71-78): for each
slice read `RescaleIntercept` and `RescaleSlope`, apply the Hounsfield
calibration `escala * imagen + intercepto`, and store the plane into the
volume. -/
def creaLoop (filas columnas : ℕ) :
    List DicomSlice → Except PyErr (List (List (List ℚ)))
  | [] => Except.ok []
  | s :: rest =>
    match s.RescaleIntercept with
    | none => Except.error PyErr.attributeError
    | some intercepto =>
      match s.RescaleSlope with
      | none => Except.error PyErr.attributeError
      | some escala =>
        match broadcastAssign filas columnas
            (calibra escala intercepto s.pixel_array) with
        | none => Except.error PyErr.valueError
        | some plano =>
          match creaLoop filas columnas rest with
          | Except.error e => Except.error e
          | Except.ok resto => Except.ok (plano :: resto)

/-- Result of `CreaVolumen`: the calibrated volume, `volumen.shape`, the
aspect-ratio triple `(axial, sagital, coronal)` and the voxel size. -/
structure VolResult where
  volumen : List (List (List ℚ))
  shape : ℕ × ℕ × ℕ
  relacion_aspecto : ℚ × ℚ × ℚ
  tamanoVoxel : ℚ × ℚ × ℚ
deriving DecidableEq, Repr

/-- Embeds `CreaVolumen` (archivo.py lines 43-93): stacks the calibrated slices
into a 3D volume, then derives voxel size and the three aspect ratios from
slice 0's `PixelSpacing` / `SliceThickness`. -/
def CreaVolumen (imagenes : List DicomSlice) : Except PyErr VolResult :=
  match imagenes.head? with
  | none => Except.error PyErr.indexError
  | some primero =>
    match creaLoop (pyShape primero.pixel_array).1
        (pyShape primero.pixel_array).2 imagenes with
    | Except.error e => Except.error e
    | Except.ok volumen =>
      match primero.PixelSpacing with
      | none => Except.error PyErr.attributeError
      | some pixel_spacing =>
        match primero.SliceThickness with
        | none => Except.error PyErr.attributeError
        | some slice_thickness =>
          Except.ok
            { volumen := volumen
              shape := (imagenes.length, (pyShape primero.pixel_array).1,
                (pyShape primero.pixel_array).2)
              relacion_aspecto :=
                (slice_thickness / pixel_spacing.1,
                 pixel_spacing.1 / pixel_spacing.2,
                 slice_thickness / pixel_spacing.2)
              tamanoVoxel :=
                (slice_thickness, pixel_spacing.1, pixel_spacing.2) }

/-- A slice with every optional attribute absent, used as the base of the
concrete examples below. -/
def sliceBase : DicomSlice where
  pixel_array := []
  RescaleIntercept := none
  RescaleSlope := none
  PixelSpacing := none
  SliceThickness := none
  PatientName := none
  PatientAge := none
  PatientSex := none
  Modality := none
  AcquisitionDate := none
  ManufacturerModelName := none
  Rows := none
  Columns := none


/-- Computes `volumen >= t` : elementwise boolean comparison over the 3D array. -/
def np_ge (volumen : List (List (List ℚ))) (t : ℚ) : List (List (List Bool)) :=
  volumen.map (fun plano => plano.map (fun row => row.map (fun x => t ≤ x)))

/-- Computes `volumen <= t` : elementwise boolean comparison over the 3D array. -/
def np_le (volumen : List (List (List ℚ))) (t : ℚ) : List (List (List Bool)) :=
  volumen.map (fun plano => plano.map (fun row => row.map (fun x => x ≤ t)))

/-- Embeds `np.logical_and` over two 3D boolean arrays of the same shape. -/
def np_logical_and (u v : List (List (List Bool))) : List (List (List Bool)) :=
  List.zipWith (fun pu pv => List.zipWith (fun ru rv =>
    List.zipWith (fun bu bv => bu && bv) ru rv) pu pv) u v

/-- Embeds `.astype(np.uint8)` on a boolean array: `True ↦ 1`, `False ↦ 0`. -/
def astype_uint8 (u : List (List (List Bool))) : List (List (List ℕ)) :=
  u.map (fun plano => plano.map (fun row =>
    row.map (fun b => if b then 1 else 0)))

/-- Embeds `segmentacion_hu` (archivo.py lines 195-202): for each table entry
`(tejido, (hu_min, hu_max))`, in insertion order, the binary mask
`np.logical_and(volumen >= hu_min, volumen <= hu_max).astype(np.uint8)`. -/
def segmentacion_hu (volumen : List (List (List ℚ)))
    (umbrales_hu : List (String × ℚ × ℚ)) :
    List (String × List (List (List ℕ))) :=
  umbrales_hu.map (fun e =>
    (e.1, astype_uint8 (np_logical_and (np_ge volumen e.2.1)
      (np_le volumen e.2.2))))

/-- The built-in HU threshold table of archivo.py lines 223-229. -/
def umbrales_hu : List (String × ℚ × ℚ) :=
  [("aire", -1000, -700),
   ("grasa", -120, -50),
   ("tejido blando", 0, 60),
   ("hueso esponjoso", 150, 300),
   ("hueso compacto", 300, 1500)]

/-- Failure modes of the adaptive (multi-Otsu) segmenter, named as in the
specification's error taxonomy. -/
inductive OtsuErr where
  | invalidClassCount
  | degenerateHistogram
deriving DecidableEq, Repr

/-- The distinct intensity values of a 2D slice, in increasing order. -/
def distinctVals (imagen : List (List ℚ)) : List ℚ :=
  (imagen.flatten.dedup).insertionSort (fun a b => a ≤ b)

/-- Modelled from the spec: `skimage.filters.threshold_multiotsu`, the
external library routine called by `Segmentar_Otsu`, is not part of this
repository.  Per the spec it fails with `InvalidClassCount` when
`classes < 2`, fails with `DegenerateHistogram` when the slice has fewer
than `classes` distinct intensity values, and otherwise returns
`classes - 1` break points in increasing order (here: interior distinct
values of the slice; the variance-maximizing choice of break points is
abstracted, only their count and order matter to the claims). -/
def threshold_multiotsu (imagen : List (List ℚ)) (classes : ℕ) :
    Except OtsuErr (List ℚ) :=
  if classes < 2 then Except.error OtsuErr.invalidClassCount
  else if (distinctVals imagen).length < classes then
    Except.error OtsuErr.degenerateHistogram
  else Except.ok (((distinctVals imagen).drop 1).take (classes - 1))

/-- Embeds `np.digitize(x, bins)` for increasing `bins` (right=False): the number
of break points that are `≤ x`, i.e. the index of the half-open interval
`x` falls into. -/
def np_digitize (x : ℚ) (bins : List ℚ) : ℕ :=
  bins.countP (fun b => decide (b ≤ x))

/-- The per-slice loop of `Segmentar_Otsu` (archivo.py lines 257-267):
compute the multi-Otsu break points of each slice and digitize the slice
with them. -/
def otsuSlices (classes : ℕ) :
    List (List (List ℚ)) → Except OtsuErr (List (List (List ℕ)))
  | [] => Except.ok []
  | imagen :: rest =>
    match threshold_multiotsu imagen classes with
    | Except.error e => Except.error e
    | Except.ok thresholds =>
      match otsuSlices classes rest with
      | Except.error e => Except.error e
      | Except.ok resto =>
        Except.ok ((imagen.map (fun row =>
          row.map (fun x => np_digitize x thresholds))) :: resto)

/-- Embeds `Segmentar_Otsu` (archivo.py lines 239-269): per-slice multi-Otsu
thresholding followed by `np.digitize`, stacked back into a volume. -/
def Segmentar_Otsu (volumen : List (List (List ℚ))) (classes : ℕ) :
    Except OtsuErr (List (List (List ℕ))) :=
  otsuSlices classes volumen

/-- The record returned by `MetadataDT`; each field is `none` exactly when
the Python code stores the string sentinel `"No disponible"` for it. -/
structure Metadatos where
  nombre_sujeto : Option String
  edad_sujeto : Option String
  sexo_sujeto : Option String
  tipo_imagen : Option String
  fecha_adquisicion : Option String
  modelo_tomografo : Option String
  espesor_corte : Option ℚ
  tamanoVoxel : Option (ℚ × ℚ × ℚ)
  tamano_imagen_voxeles : Option (ℕ × ℕ)
  tamano_imagen_mm : Option (ℚ × ℚ)
deriving DecidableEq, Repr

/-- Embeds `MetadataDT` (archivo.py lines 96-157): reads slice 0 only; each
descriptive attribute is copied when present (`hasattr`) and replaced by
the sentinel when absent.  The voxel size is computed only when
`pixel_spacing and slice_thickness` is truthy in Python: a present
`PixelSpacing` (a two-element multivalue) is always truthy, a present
`SliceThickness` is truthy iff it is nonzero.  The size in mm is computed
only when both the voxel size and the voxel-count field are available, as
`(Rows * tamanoVoxel[0], Columns * tamanoVoxel[1])`. -/
def MetadataDT (imagenes : List DicomSlice) : Except PyErr Metadatos :=
  match imagenes.head? with
  | none => Except.error PyErr.indexError
  | some i =>
    let tamanoVoxel : Option (ℚ × ℚ × ℚ) :=
      match i.PixelSpacing, i.SliceThickness with
      | some ps, some st => if st ≠ 0 then some (st, ps.1, ps.2) else none
      | _, _ => none
    let tamano_imagen_voxeles : Option (ℕ × ℕ) :=
      match i.Rows, i.Columns with
      | some r, some c => some (r, c)
      | _, _ => none
    Except.ok
      { nombre_sujeto := i.PatientName
        edad_sujeto := i.PatientAge
        sexo_sujeto := i.PatientSex
        tipo_imagen := i.Modality
        fecha_adquisicion := i.AcquisitionDate
        modelo_tomografo := i.ManufacturerModelName
        espesor_corte := i.SliceThickness
        tamanoVoxel := tamanoVoxel
        tamano_imagen_voxeles := tamano_imagen_voxeles
        tamano_imagen_mm :=
          match tamanoVoxel, tamano_imagen_voxeles with
          | some tv, some rc => some ((rc.1 : ℚ) * tv.1, (rc.2 : ℚ) * tv.2.1)
          | _, _ => none }

/-- Both calibration attributes that the per-slice loop reads are present. -/
def calibOk (s : DicomSlice) : Bool :=
  s.RescaleIntercept.isSome && s.RescaleSlope.isSome

/-- The slice's pixel array can be broadcast-assigned into a plane of the
given shape. -/
def shapeOk (filas columnas : ℕ) (s : DicomSlice) : Bool :=
  broadcastable filas columnas (pyShape s.pixel_array).1
    (pyShape s.pixel_array).2

lemma range_map_getD {α : Type} (l : List α) (d : α) :
    (List.range l.length).map (fun i => l.getD i d) = l := by
  induction l with
  | nil => simp
  | cons a t ih =>
    simp only [List.length_cons, List.range_succ_eq_map, List.map_cons,
      List.map_map]
    refine congrArg₂ _ rfl ?_
    simp only [Function.comp_def, Nat.succ_eq_add_one, List.getD,
      List.getElem?_cons_succ]
    simpa [List.getD] using ih

lemma pyShape_calibra (e i : ℚ) (img : List (List ℚ)) :
    pyShape (calibra e i img) = pyShape img := by
  cases img with
  | nil => simp [calibra, pyShape]
  | cons a t => simp [calibra, pyShape]

lemma isRect_calibra (e i : ℚ) (img : List (List ℚ))
    (h : isRect img = true) : isRect (calibra e i img) = true := by
  cases img with
  | nil => simp [calibra, isRect]
  | cons a t =>
    simp only [isRect, calibra, List.map_cons, List.headD_cons,
      List.all_eq_true, beq_iff_eq, List.length_map] at h ⊢
    intro r hr
    rcases List.mem_cons.mp hr with hr | hr
    · subst hr; simp
    · obtain ⟨r0, hr0, rfl⟩ := List.mem_map.mp hr
      simpa using h r0 (List.mem_cons_of_mem _ hr0)

lemma getD_reconstruct {img : List (List ℚ)} (hrect : isRect img = true) :
    (List.range img.length).map (fun r =>
      (List.range (img.headD []).length).map
        (fun c => (img.getD r []).getD c 0)) = img := by
  have hlen : ∀ r < img.length,
      (img.getD r []).length = (img.headD []).length := by
    intro r hr
    have hmem : img.getD r [] ∈ img := by
      rw [List.getD_eq_getElem _ _ hr]
      exact List.getElem_mem hr
    have := (List.all_eq_true.mp hrect) _ hmem
    simpa using this
  calc (List.range img.length).map (fun r =>
        (List.range (img.headD []).length).map
          (fun c => (img.getD r []).getD c 0))
      = (List.range img.length).map (fun r => img.getD r []) := by
        refine List.map_congr_left ?_
        intro r hr
        rw [List.mem_range] at hr
        rw [← hlen r hr]
        exact range_map_getD (img.getD r []) 0
    _ = img := range_map_getD img []

lemma broadcastAssign_self {img : List (List ℚ)} {f c : ℕ}
    (hrect : isRect img = true) (hs : pyShape img = (f, c)) :
    broadcastAssign f c img = some img := by
  have h1 : (pyShape img).1 = f := by rw [hs]
  have h2 : (pyShape img).2 = c := by rw [hs]
  unfold broadcastAssign
  rw [h1, h2]
  have hb : broadcastable f c f c = true := by
    simp [broadcastable]
  rw [hb]
  simp only [if_true]
  refine congrArg some ?_
  have hf : img.length = f := by
    simpa [pyShape] using congrArg Prod.fst hs
  have hc : (img.headD []).length = c := by
    simpa [pyShape] using congrArg Prod.snd hs
  calc (List.range f).map (fun r => (List.range c).map fun cc =>
        (img.getD (if f = 1 then 0 else r) []).getD
          (if c = 1 then 0 else cc) 0)
      = (List.range f).map (fun r => (List.range c).map fun cc =>
          (img.getD r []).getD cc 0) := by
        refine List.map_congr_left ?_
        intro r hr
        rw [List.mem_range] at hr
        refine List.map_congr_left ?_
        intro cc hcc
        rw [List.mem_range] at hcc
        have er : (if f = 1 then 0 else r) = r := by
          by_cases h : f = 1
          · rw [if_pos h]; omega
          · simp [h]
        have ec : (if c = 1 then 0 else cc) = cc := by
          by_cases h : c = 1
          · rw [if_pos h]; omega
          · simp [h]
        rw [er, ec]
    _ = img := by
        rw [← hf, ← hc]
        exact getD_reconstruct hrect

lemma broadcastAssign_none_iff (f c : ℕ) (img : List (List ℚ)) :
    broadcastAssign f c img = none ↔
      broadcastable f c (pyShape img).1 (pyShape img).2 = false := by
  unfold broadcastAssign
  by_cases hb : broadcastable f c (pyShape img).1 (pyShape img).2 = true
  · simp [hb]
  · simp only [Bool.not_eq_true] at hb
    simp [hb]

lemma broadcastAssign_isSome (f c : ℕ) (img : List (List ℚ))
    (hb : broadcastable f c (pyShape img).1 (pyShape img).2 = true) :
    ∃ p, broadcastAssign f c img = some p := by
  unfold broadcastAssign
  rw [hb]
  exact ⟨_, rfl⟩

lemma calibOk_iff (s : DicomSlice) :
    calibOk s = true ↔
      (∃ iv, s.RescaleIntercept = some iv) ∧
        (∃ ev, s.RescaleSlope = some ev) := by
  simp [calibOk, Bool.and_eq_true, Option.isSome_iff_exists]

lemma creaLoop_exact {f c : ℕ} (l : List DicomSlice)
    (h : ∀ s ∈ l, isRect s.pixel_array = true ∧
      pyShape s.pixel_array = (f, c) ∧ calibOk s = true) :
    creaLoop f c l = Except.ok (l.map (fun s =>
      calibra (s.RescaleSlope.getD 0) (s.RescaleIntercept.getD 0)
        s.pixel_array)) := by
  induction l with
  | nil => simp [creaLoop]
  | cons s rest ih =>
    obtain ⟨hrect, hshape, hcal⟩ := h s (List.mem_cons_self s rest)
    obtain ⟨⟨iv, hiv⟩, ⟨ev, hev⟩⟩ := (calibOk_iff s).mp hcal
    have hba : broadcastAssign f c (calibra ev iv s.pixel_array) =
        some (calibra ev iv s.pixel_array) :=
      broadcastAssign_self (isRect_calibra ev iv _ hrect)
        ((pyShape_calibra ev iv s.pixel_array).trans hshape)
    have hrec := ih (fun t ht => h t (List.mem_cons_of_mem s ht))
    simp only [creaLoop, hiv, hev, hba, hrec, List.map_cons]
    simp [hiv, hev]

lemma creaLoop_ok_iff {f c : ℕ} (l : List DicomSlice) :
    (∃ v, creaLoop f c l = Except.ok v) ↔
      ∀ s ∈ l, calibOk s = true ∧ shapeOk f c s = true := by
  induction l with
  | nil => simp [creaLoop]
  | cons s rest ih =>
    constructor
    · rintro ⟨v, hv⟩
      cases hi : s.RescaleIntercept with
      | none => simp [creaLoop, hi] at hv
      | some iv =>
        cases he : s.RescaleSlope with
        | none => simp [creaLoop, hi, he] at hv
        | some ev =>
          cases hba : broadcastAssign f c (calibra ev iv s.pixel_array) with
          | none => simp [creaLoop, hi, he, hba] at hv
          | some plano =>
            cases hr : creaLoop f c rest with
            | error e => simp [creaLoop, hi, he, hba, hr] at hv
            | ok resto =>
              have hcal : calibOk s = true :=
                (calibOk_iff s).mpr ⟨⟨iv, hi⟩, ⟨ev, he⟩⟩
              have hsh : shapeOk f c s = true := by
                by_contra hns
                simp only [Bool.not_eq_true] at hns
                have : broadcastAssign f c (calibra ev iv s.pixel_array) =
                    none := by
                  rw [broadcastAssign_none_iff, pyShape_calibra]
                  exact hns
                rw [this] at hba
                cases hba
              refine fun t ht => ?_
              rcases List.mem_cons.mp ht with rfl | ht
              · exact ⟨hcal, hsh⟩
              · exact ih.mp ⟨resto, hr⟩ t ht
    · intro h
      obtain ⟨hcal, hsh⟩ := h s (List.mem_cons_self s rest)
      obtain ⟨⟨iv, hiv⟩, ⟨ev, hev⟩⟩ := (calibOk_iff s).mp hcal
      obtain ⟨plano, hba⟩ := broadcastAssign_isSome f c
        (calibra ev iv s.pixel_array) (by rw [pyShape_calibra]; exact hsh)
      obtain ⟨resto, hr⟩ := ih.mpr (fun t ht => h t (List.mem_cons_of_mem s ht))
      refine ⟨plano :: resto, ?_⟩
      simp [creaLoop, hiv, hev, hba, hr]

lemma creaLoop_err_attr {f c : ℕ} (l : List DicomSlice)
    (hshape : ∀ s ∈ l, shapeOk f c s = true)
    (hbad : ∃ s ∈ l, calibOk s = false) :
    creaLoop f c l = Except.error PyErr.attributeError := by
  induction l with
  | nil => simp at hbad
  | cons s rest ih =>
    by_cases hcal : calibOk s = true
    · obtain ⟨⟨iv, hiv⟩, ⟨ev, hev⟩⟩ := (calibOk_iff s).mp hcal
      obtain ⟨plano, hba⟩ := broadcastAssign_isSome f c
        (calibra ev iv s.pixel_array)
        (by rw [pyShape_calibra]; exact (hshape s (List.mem_cons_self s rest)))
      have hrest : ∃ t ∈ rest, calibOk t = false := by
        rcases hbad with ⟨t, ht, htc⟩
        rcases List.mem_cons.mp ht with rfl | ht
        · rw [hcal] at htc; cases htc
        · exact ⟨t, ht, htc⟩
      have := ih (fun t ht => hshape t (List.mem_cons_of_mem s ht)) hrest
      simp [creaLoop, hiv, hev, hba, this]
    · simp only [Bool.not_eq_true, calibOk, Bool.and_eq_false_iff] at hcal
      rcases hcal with hi | he
      · have hin : s.RescaleIntercept = none := by
          cases h : s.RescaleIntercept with
          | none => rfl
          | some iv => rw [h] at hi; simp at hi
        simp [creaLoop, hin]
      · have hen : s.RescaleSlope = none := by
          cases h : s.RescaleSlope with
          | none => rfl
          | some ev => rw [h] at he; simp at he
        cases hi : s.RescaleIntercept with
        | none => simp [creaLoop, hi]
        | some iv => simp [creaLoop, hi, hen]

lemma creaLoop_err_val {f c : ℕ} (l : List DicomSlice)
    (hcal : ∀ s ∈ l, calibOk s = true)
    (hbad : ∃ s ∈ l, shapeOk f c s = false) :
    creaLoop f c l = Except.error PyErr.valueError := by
  induction l with
  | nil => simp at hbad
  | cons s rest ih =>
    obtain ⟨⟨iv, hiv⟩, ⟨ev, hev⟩⟩ :=
      (calibOk_iff s).mp (hcal s (List.mem_cons_self s rest))
    by_cases hsh : shapeOk f c s = true
    · obtain ⟨plano, hba⟩ := broadcastAssign_isSome f c
        (calibra ev iv s.pixel_array) (by rw [pyShape_calibra]; exact hsh)
      have hrest : ∃ t ∈ rest, shapeOk f c t = false := by
        rcases hbad with ⟨t, ht, htc⟩
        rcases List.mem_cons.mp ht with rfl | ht
        · rw [hsh] at htc; cases htc
        · exact ⟨t, ht, htc⟩
      have := ih (fun t ht => hcal t (List.mem_cons_of_mem s ht)) hrest
      simp [creaLoop, hiv, hev, hba, this]
    · simp only [Bool.not_eq_true] at hsh
      have hba : broadcastAssign f c (calibra ev iv s.pixel_array) = none := by
        rw [broadcastAssign_none_iff, pyShape_calibra]
        exact hsh
      simp [creaLoop, hiv, hev, hba]

lemma calibra_one_zero (img : List (List ℚ)) : calibra 1 0 img = img := by
  simp [calibra]

/-- C1: for every non-empty slice sequence meeting the reconstruction
preconditions (all pixel arrays rectangular of the first slice's shape,
calibration attributes present, slice 0 spacing/thickness present), the
reconstructed volume is `volume[i] = slope_i * rawPixel_i + intercept_i`
elementwise with each slice's own slope and intercept; in particular, if
every slice has slope 1 and intercept 0, the volume is exactly the raw
pixel data. -/
theorem crea_volumen_calibracion (imagenes : List DicomSlice)
    (s0 : DicomSlice)
    (h0 : imagenes.head? = some s0)
    (hrect : ∀ s ∈ imagenes, isRect s.pixel_array = true)
    (hshape : ∀ s ∈ imagenes, pyShape s.pixel_array = pyShape s0.pixel_array)
    (hcal : ∀ s ∈ imagenes, calibOk s = true)
    (hps : ∃ ps, s0.PixelSpacing = some ps)
    (hst : ∃ st, s0.SliceThickness = some st) :
    ∃ res, CreaVolumen imagenes = Except.ok res ∧
      res.volumen = imagenes.map (fun s =>
        s.pixel_array.map (fun row => row.map (fun x =>
          s.RescaleSlope.getD 0 * x + s.RescaleIntercept.getD 0))) ∧
      ((∀ s ∈ imagenes, s.RescaleSlope = some 1 ∧ s.RescaleIntercept = some 0) →
        res.volumen = imagenes.map (fun s => s.pixel_array)) := by
  obtain ⟨ps, hpsv⟩ := hps
  obtain ⟨st, hstv⟩ := hst
  have hloop := @creaLoop_exact (pyShape s0.pixel_array).1
    (pyShape s0.pixel_array).2 imagenes
    (fun s hs => ⟨hrect s hs, by rw [hshape s hs], hcal s hs⟩)
  refine ⟨⟨imagenes.map (fun s => calibra (s.RescaleSlope.getD 0)
      (s.RescaleIntercept.getD 0) s.pixel_array),
    (imagenes.length, (pyShape s0.pixel_array).1, (pyShape s0.pixel_array).2),
    (st / ps.1, ps.1 / ps.2, st / ps.2), (st, ps.1, ps.2)⟩, ?_, ?_, ?_⟩
  · simp [CreaVolumen, h0, hloop, hpsv, hstv]
  · simp [calibra]
  · intro hone
    refine List.map_congr_left ?_
    intro s hs
    rw [(hone s hs).1, (hone s hs).2]
    simpa using calibra_one_zero s.pixel_array

/-- Concrete two-slice input for the C1 witness: slice 0 has slope 2 and
intercept 3, slice 1 has slope 1 and intercept 0. -/
def exC1 : List DicomSlice :=
  [{ sliceBase with
      pixel_array := [[5, 10]]
      RescaleIntercept := some 3
      RescaleSlope := some 2
      PixelSpacing := some (1, 1)
      SliceThickness := some 1 },
   { sliceBase with
      pixel_array := [[4, 6]]
      RescaleIntercept := some 0
      RescaleSlope := some 1 }]

/-- Witness for C1 at a concrete input. -/
theorem crea_volumen_calibracion_witness :
    ∃ res, CreaVolumen exC1 = Except.ok res ∧
      res.volumen = [[[13, 23]], [[4, 6]]] := by
  obtain ⟨res, hok, hvol, -⟩ :=
    crea_volumen_calibracion exC1 (exC1.headD sliceBase) rfl
      (by decide) (by decide) (by decide) ⟨(1, 1), rfl⟩ ⟨1, rfl⟩
  refine ⟨res, hok, ?_⟩
  rw [hvol]
  norm_num [exC1, sliceBase]

/-- C2: the reconstructor derives its geometry from slice 0 only:
`tamanoVoxel = (sliceThickness, rowSpacing, colSpacing)` and the aspect
ratios are axial = thickness/rowSpacing, sagittal = rowSpacing/colSpacing,
coronal = thickness/colSpacing. -/
theorem crea_volumen_geometria (imagenes : List DicomSlice) (s0 : DicomSlice)
    (t r c : ℚ) (res : VolResult)
    (h0 : imagenes.head? = some s0)
    (hps : s0.PixelSpacing = some (r, c))
    (hst : s0.SliceThickness = some t)
    (hok : CreaVolumen imagenes = Except.ok res) :
    res.tamanoVoxel = (t, r, c) ∧
      res.relacion_aspecto = (t / r, r / c, t / c) := by
  cases hl : creaLoop (pyShape s0.pixel_array).1 (pyShape s0.pixel_array).2
      imagenes with
  | error e => simp [CreaVolumen, h0, hl] at hok
  | ok vol =>
    simp only [CreaVolumen, h0, hl, hps, hst, Except.ok.injEq] at hok
    rw [← hok]
    exact ⟨rfl, rfl⟩

/-- Concrete two-slice input realizing the spec's Scenario B:
rowSpacing = colSpacing = 1.0, sliceThickness = 2.0. -/
def exC2 : List DicomSlice :=
  [{ sliceBase with
      pixel_array := [[0]]
      RescaleIntercept := some 0
      RescaleSlope := some 1
      PixelSpacing := some (1, 1)
      SliceThickness := some 2 },
   { sliceBase with
      pixel_array := [[7]]
      RescaleIntercept := some 0
      RescaleSlope := some 1 }]

/-- Witness for C2: Scenario B yields voxelSize (2,1,1), axial 2,
sagittal 1, coronal 2. -/
theorem crea_volumen_geometria_witness :
    ∃ res, CreaVolumen exC2 = Except.ok res ∧
      res.tamanoVoxel = (2, 1, 1) ∧ res.relacion_aspecto = (2, 1, 2) := by
  have hok : CreaVolumen exC2 =
      Except.ok ⟨[[[0]], [[7]]], (2, 1, 1), (2, 1, 2), (2, 1, 1)⟩ := by
    norm_num [CreaVolumen, creaLoop, broadcastAssign, broadcastable, calibra,
      pyShape, exC2, sliceBase, List.range_succ]
  have h := crea_volumen_geometria exC2 (exC2.headD sliceBase) 2 1 1 _
    rfl rfl rfl hok
  exact ⟨_, hok, h.1, by rw [h.2]; norm_num⟩

/-- C5 as stated is false: with rowSpacing 1, colSpacing 2, thickness 1
(all positive), axial × (colSpacing/rowSpacing) / coronal = 4, not 1. -/
def exC5 : List DicomSlice :=
  [{ sliceBase with
      pixel_array := [[0]]
      RescaleIntercept := some 0
      RescaleSlope := some 1
      PixelSpacing := some (1, 2)
      SliceThickness := some 1 }]

/-- C5 counterexample: the claimed identity
axial × (colSpacing/rowSpacing) / coronal == 1 fails on the volume built
from a slice with rowSpacing 1, colSpacing 2, sliceThickness 1. -/
theorem relacion_aspecto_identidad_cex :
    ∃ res, CreaVolumen exC5 = Except.ok res ∧
      res.relacion_aspecto.1 * ((2 : ℚ) / 1) / res.relacion_aspecto.2.2 ≠ 1 := by
  have hok : CreaVolumen exC5 =
      Except.ok ⟨[[[0]]], (1, 1, 1), (1, 1 / 2, 1 / 2), (1, 1, 2)⟩ := by
    norm_num [CreaVolumen, creaLoop, broadcastAssign, broadcastable, calibra,
      pyShape, exC5, sliceBase, List.range_succ]
  refine ⟨_, hok, ?_⟩
  norm_num

/-- C5 amended: the identity that actually holds between the derived
ratios is axial × (rowSpacing/colSpacing) / coronal == 1 (equivalently
axial × sagittal = coronal) for all positive spacing inputs. -/
theorem relacion_aspecto_identidad (imagenes : List DicomSlice)
    (s0 : DicomSlice) (t r c : ℚ) (res : VolResult)
    (h0 : imagenes.head? = some s0)
    (hps : s0.PixelSpacing = some (r, c))
    (hst : s0.SliceThickness = some t)
    (hr : 0 < r) (hc : 0 < c) (ht : 0 < t)
    (hok : CreaVolumen imagenes = Except.ok res) :
    res.relacion_aspecto.1 * (r / c) / res.relacion_aspecto.2.2 = 1 := by
  have h := (crea_volumen_geometria imagenes s0 t r c res h0 hps hst hok).2
  rw [h]
  field_simp

/-- C7 amended: reconstruction raises `IndexError` (the spec's EmptyInput)
on the empty sequence; it succeeds iff every slice has slope and intercept
and a pixel array broadcastable to slice 0's shape, and slice 0 has
spacing and thickness.  When all shapes broadcast but some slice lacks
slope or intercept, or when slice 0 lacks spacing or thickness, it raises
`AttributeError` (MissingCalibration); spacing/thickness of later slices
are never read.  When calibration is complete but some slice's shape is
not broadcastable to slice 0's, it raises `ValueError` (ShapeMismatch);
a differing but broadcastable shape (e.g. 1×1) is silently accepted. -/
theorem crea_volumen_fallos (imagenes : List DicomSlice) :
    (imagenes = [] → CreaVolumen imagenes = Except.error PyErr.indexError) ∧
    (∀ s0, imagenes.head? = some s0 →
      (((∃ res, CreaVolumen imagenes = Except.ok res) ↔
          ((∀ s ∈ imagenes, calibOk s = true ∧
              shapeOk (pyShape s0.pixel_array).1
                (pyShape s0.pixel_array).2 s = true) ∧
            (∃ ps, s0.PixelSpacing = some ps) ∧
            (∃ st, s0.SliceThickness = some st))) ∧
        ((∀ s ∈ imagenes, shapeOk (pyShape s0.pixel_array).1
            (pyShape s0.pixel_array).2 s = true) →
          (∃ s ∈ imagenes, calibOk s = false) →
          CreaVolumen imagenes = Except.error PyErr.attributeError) ∧
        ((∀ s ∈ imagenes, calibOk s = true) →
          (∃ s ∈ imagenes, shapeOk (pyShape s0.pixel_array).1
            (pyShape s0.pixel_array).2 s = false) →
          CreaVolumen imagenes = Except.error PyErr.valueError) ∧
        ((∀ s ∈ imagenes, calibOk s = true ∧
            shapeOk (pyShape s0.pixel_array).1
              (pyShape s0.pixel_array).2 s = true) →
          (s0.PixelSpacing = none ∨ s0.SliceThickness = none) →
          CreaVolumen imagenes = Except.error PyErr.attributeError))) := by
  constructor
  · rintro rfl
    simp [CreaVolumen]
  · intro s0 h0
    refine ⟨⟨?_, ?_⟩, ?_, ?_, ?_⟩
    · rintro ⟨res, hres⟩
      cases hl : creaLoop (pyShape s0.pixel_array).1
          (pyShape s0.pixel_array).2 imagenes with
      | error e => simp [CreaVolumen, h0, hl] at hres
      | ok v =>
        refine ⟨creaLoop_ok_iff imagenes |>.mp ⟨v, hl⟩, ?_, ?_⟩
        · cases hps : s0.PixelSpacing with
          | none => simp [CreaVolumen, h0, hl, hps] at hres
          | some ps => exact ⟨ps, rfl⟩
        · cases hps : s0.PixelSpacing with
          | none => simp [CreaVolumen, h0, hl, hps] at hres
          | some ps =>
            cases hst : s0.SliceThickness with
            | none => simp [CreaVolumen, h0, hl, hps, hst] at hres
            | some st => exact ⟨st, rfl⟩
    · rintro ⟨hcond, ⟨ps, hps⟩, ⟨st, hst⟩⟩
      obtain ⟨v, hl⟩ := (creaLoop_ok_iff imagenes).mpr hcond
      exact ⟨⟨v, (imagenes.length, (pyShape s0.pixel_array).1,
          (pyShape s0.pixel_array).2),
        (st / ps.1, ps.1 / ps.2, st / ps.2), (st, ps.1, ps.2)⟩,
        by simp [CreaVolumen, h0, hl, hps, hst]⟩
    · intro hshape hbad
      have hl := creaLoop_err_attr imagenes hshape hbad
      simp [CreaVolumen, h0, hl]
    · intro hcal hbad
      have hl := creaLoop_err_val imagenes hcal hbad
      simp [CreaVolumen, h0, hl]
    · intro hcond hmiss
      obtain ⟨v, hl⟩ := (creaLoop_ok_iff imagenes).mpr hcond
      rcases hmiss with hps | hst
      · simp [CreaVolumen, h0, hl, hps]
      · cases hps : s0.PixelSpacing with
        | none => simp [CreaVolumen, h0, hl, hps]
        | some ps => simp [CreaVolumen, h0, hl, hps, hst]

/-- Two same-shaped fully calibrated slices, except that the second one
lacks `PixelSpacing` and `SliceThickness`: reconstruction succeeds because
it only reads them from slice 0. -/
def exC7a : List DicomSlice :=
  [{ sliceBase with
      pixel_array := [[1, 2], [3, 4]]
      RescaleIntercept := some 0
      RescaleSlope := some 1
      PixelSpacing := some (1, 1)
      SliceThickness := some 1 },
   { sliceBase with
      pixel_array := [[1, 2], [3, 4]]
      RescaleIntercept := some 0
      RescaleSlope := some 1 }]

/-- A 2×2 first slice followed by a 1×1 slice: the shapes differ, but the
numpy assignment broadcasts the 1×1 array, so reconstruction succeeds. -/
def exC7b : List DicomSlice :=
  [{ sliceBase with
      pixel_array := [[1, 2], [3, 4]]
      RescaleIntercept := some 0
      RescaleSlope := some 1
      PixelSpacing := some (1, 1)
      SliceThickness := some 1 },
   { sliceBase with
      pixel_array := [[7]]
      RescaleIntercept := some 0
      RescaleSlope := some 1 }]

/-- C7 counterexample: a slice other than slice 0 lacking spacing and
thickness does not make reconstruction fail, and two slices differing in
(rows, columns) do not make it fail either when the second broadcasts. -/
theorem crea_volumen_fallos_cex :
    (∃ s ∈ exC7a, s.PixelSpacing = none ∧ s.SliceThickness = none) ∧
    (∃ res, CreaVolumen exC7a = Except.ok res) ∧
    (∃ s ∈ exC7b, pyShape s.pixel_array ≠
      pyShape ((exC7b.headD sliceBase).pixel_array)) ∧
    (∃ res, CreaVolumen exC7b = Except.ok res) := by
  have ha : CreaVolumen exC7a = Except.ok
      ⟨[[[1, 2], [3, 4]], [[1, 2], [3, 4]]], (2, 2, 2), (1, 1, 1),
        (1, 1, 1)⟩ := by
    norm_num [CreaVolumen, creaLoop, broadcastAssign, broadcastable, calibra,
      pyShape, exC7a, sliceBase, List.range_succ]
  have hb : CreaVolumen exC7b = Except.ok
      ⟨[[[1, 2], [3, 4]], [[7, 7], [7, 7]]], (2, 2, 2), (1, 1, 1),
        (1, 1, 1)⟩ := by
    norm_num [CreaVolumen, creaLoop, broadcastAssign, broadcastable, calibra,
      pyShape, exC7b, sliceBase, List.range_succ]
  refine ⟨by decide, ⟨_, ha⟩, by decide, ⟨_, hb⟩⟩

/-- A slice whose `RescaleIntercept` is absent. -/
def exC7w : List DicomSlice :=
  [{ sliceBase with
      pixel_array := [[1]]
      RescaleSlope := some 1
      PixelSpacing := some (1, 1)
      SliceThickness := some 1 }]

/-- Witness for the amended C7 at concrete inputs. -/
theorem crea_volumen_fallos_witness :
    CreaVolumen [] = Except.error PyErr.indexError ∧
    CreaVolumen exC7w = Except.error PyErr.attributeError := by
  constructor
  · exact (crea_volumen_fallos []).1 rfl
  · exact (((crea_volumen_fallos exC7w).2 (exC7w.headD sliceBase)
      rfl).2.1) (by decide) (by decide)

lemma getD_map {α β : Type} (f : α → β) (l : List α) (j : ℕ)
    (hj : j < l.length) (d : α) (d' : β) :
    (l.map f).getD j d' = f (l.getD j d) := by
  rw [List.getD_eq_getElem _ _ (by simpa using hj),
    List.getD_eq_getElem _ _ hj, List.getElem_map]

lemma mask_eq (volumen : List (List (List ℚ))) (mn mx : ℚ) :
    astype_uint8 (np_logical_and (np_ge volumen mn) (np_le volumen mx)) =
      volumen.map (fun plano => plano.map (fun row =>
        row.map (fun x => if mn ≤ x ∧ x ≤ mx then 1 else 0))) := by
  simp only [np_ge, np_le, np_logical_and, astype_uint8,
    List.zipWith_map_left, List.zipWith_map_right, List.zipWith_same,
    List.map_map]
  refine List.map_congr_left fun plano _ => ?_
  simp only [Function.comp_apply, List.zipWith_map_left,
    List.zipWith_map_right, List.zipWith_same, List.map_map]
  refine List.map_congr_left fun row _ => ?_
  simp only [Function.comp_apply, List.zipWith_map_left,
    List.zipWith_map_right, List.zipWith_same, List.map_map]
  refine List.map_congr_left fun x _ => ?_
  by_cases h : mn ≤ x ∧ x ≤ mx
  · simp [h]
  · simp only [Function.comp_apply]
    rw [if_neg ?_, if_neg h]
    simpa [Bool.and_eq_true, decide_eq_true_eq] using h

lemma segmentacion_hu_getD (volumen : List (List (List ℚ)))
    (umbrales : List (String × ℚ × ℚ)) (j : ℕ) (tejido : String) (mn mx : ℚ)
    (hj : j < umbrales.length)
    (he : umbrales.getD j ("", 0, 0) = (tejido, mn, mx)) :
    (segmentacion_hu volumen umbrales).getD j ("", []) =
      (tejido, volumen.map (fun plano => plano.map (fun row =>
        row.map (fun x => if mn ≤ x ∧ x ≤ mx then 1 else 0)))) := by
  unfold segmentacion_hu
  rw [getD_map _ _ j hj ("", 0, 0) ("", []), he]
  exact congrArg _ (mask_eq volumen mn mx)

/-- C3: each threshold-table entry `(tejido, (mn, mx))` yields, at its own
position and independently of the other entries, a mask of the same shape
as the volume whose voxel value is 1 exactly when `mn ≤ v ≤ mx` (both
bounds inclusive) and 0 otherwise; overlapping intervals can therefore set
the same voxel in several masks, and a value in a gap is 0 in all masks. -/
theorem segmentacion_hu_mascara (volumen : List (List (List ℚ)))
    (umbrales : List (String × ℚ × ℚ)) (j : ℕ) (tejido : String) (mn mx : ℚ)
    (hj : j < umbrales.length)
    (he : umbrales.getD j ("", 0, 0) = (tejido, mn, mx)) :
    (segmentacion_hu volumen umbrales).length = umbrales.length ∧
    (segmentacion_hu volumen umbrales).getD j ("", []) =
      (tejido, volumen.map (fun plano => plano.map (fun row =>
        row.map (fun x => if mn ≤ x ∧ x ≤ mx then 1 else 0)))) :=
  ⟨by simp [segmentacion_hu], segmentacion_hu_getD volumen umbrales j
    tejido mn mx hj he⟩

/-- Witness for C3: the voxel value 0 lies in both intervals of the table
`[("a", [-5, 0]), ("b", [0, 20])]`, so it is 1 in both masks (inclusive
bounds, overlap allowed); 10 is only in the second, -2 only in the first. -/
theorem segmentacion_hu_mascara_witness :
    (segmentacion_hu [[[-2, 0, 10]]] [("a", -5, 0), ("b", 0, 20)]).getD 0
        ("", []) = ("a", [[[1, 1, 0]]]) ∧
    (segmentacion_hu [[[-2, 0, 10]]] [("a", -5, 0), ("b", 0, 20)]).getD 1
        ("", []) = ("b", [[[0, 1, 1]]]) := by
  constructor
  · rw [(segmentacion_hu_mascara [[[-2, 0, 10]]] [("a", -5, 0), ("b", 0, 20)]
      0 "a" (-5) 0 (by norm_num) rfl).2]
    norm_num
  · rw [(segmentacion_hu_mascara [[[-2, 0, 10]]] [("a", -5, 0), ("b", 0, 20)]
      1 "b" 0 20 (by norm_num) rfl).2]
    norm_num

/-- C6 counterexample: on the table entry `("t1", (5, 1))` with
min 5 > max 1, `segmentacion_hu` does not raise anything: it returns the
complete result, with an (all-zero) mask produced for the malformed
entry. -/
theorem segmentacion_hu_no_falla_cex :
    segmentacion_hu [[[0]]] [("t1", 5, 1)] = [("t1", [[[0]]])] := by
  norm_num [segmentacion_hu, astype_uint8, np_logical_and, np_ge, np_le]

/-- C6 amended: a table entry with min > max is not a failure mode; the
segmenter has none.  It always returns one mask per entry, and the
malformed entry's mask is identically zero of the volume's shape (no value
satisfies `min ≤ v ≤ max`). -/
theorem segmentacion_hu_intervalo_vacio (volumen : List (List (List ℚ)))
    (umbrales : List (String × ℚ × ℚ)) (j : ℕ) (tejido : String) (mn mx : ℚ)
    (hj : j < umbrales.length)
    (he : umbrales.getD j ("", 0, 0) = (tejido, mn, mx))
    (hlt : mx < mn) :
    (segmentacion_hu volumen umbrales).length = umbrales.length ∧
    (segmentacion_hu volumen umbrales).getD j ("", []) =
      (tejido, volumen.map (fun plano => plano.map (fun row =>
        row.map (fun _ => 0)))) := by
  refine ⟨by simp [segmentacion_hu], ?_⟩
  rw [segmentacion_hu_getD volumen umbrales j tejido mn mx hj he]
  refine congrArg _ ?_
  refine List.map_congr_left fun plano _ => ?_
  refine List.map_congr_left fun row _ => ?_
  refine List.map_congr_left fun x _ => ?_
  rw [if_neg]
  rintro ⟨h1, h2⟩
  linarith

/-- Witness for the amended C6 at a concrete input. -/
theorem segmentacion_hu_intervalo_vacio_witness :
    (segmentacion_hu [[[1]]] [("w", 3, -3)]).length = 1 ∧
    (segmentacion_hu [[[1]]] [("w", 3, -3)]).getD 0 ("", []) =
      ("w", [[[0]]]) := by
  have h := segmentacion_hu_intervalo_vacio [[[1]]] [("w", 3, -3)] 0 "w" 3
    (-3) (by norm_num) rfl (by norm_num)
  exact ⟨by rw [h.1]; rfl, by rw [h.2]; norm_num⟩

/-- Witness for the amended C5 at a concrete input. -/
theorem relacion_aspecto_identidad_witness :
    ∃ res, CreaVolumen exC2 = Except.ok res ∧
      res.relacion_aspecto.1 * ((1 : ℚ) / 1) / res.relacion_aspecto.2.2 = 1 := by
  have hok : CreaVolumen exC2 =
      Except.ok ⟨[[[0]], [[7]]], (2, 1, 1), (2, 1, 2), (2, 1, 1)⟩ := by
    norm_num [CreaVolumen, creaLoop, broadcastAssign, broadcastable, calibra,
      pyShape, exC2, sliceBase, List.range_succ]
  exact ⟨_, hok, relacion_aspecto_identidad exC2 (exC2.headD sliceBase)
    2 1 1 _ rfl rfl rfl one_pos one_pos two_pos hok⟩


/-- C9: the metadata summarizer never aborts on a slice record; each
descriptive field equals the slice's attribute (the sentinel appears for
exactly the absent attributes, present attributes are copied unchanged),
and unavailability propagates into the computed fields: the physical size
in mm is the sentinel whenever the voxel size or the voxel-count field
is. -/
theorem metadata_dt_centinela (s : DicomSlice) (rest : List DicomSlice) :
    ∃ m, MetadataDT (s :: rest) = Except.ok m ∧
      m.nombre_sujeto = s.PatientName ∧
      m.edad_sujeto = s.PatientAge ∧
      m.sexo_sujeto = s.PatientSex ∧
      m.tipo_imagen = s.Modality ∧
      m.fecha_adquisicion = s.AcquisitionDate ∧
      m.modelo_tomografo = s.ManufacturerModelName ∧
      m.espesor_corte = s.SliceThickness ∧
      ((m.tamanoVoxel = none ∨ m.tamano_imagen_voxeles = none) →
        m.tamano_imagen_mm = none) := by
  refine ⟨_, rfl, rfl, rfl, rfl, rfl, rfl, rfl, rfl, ?_⟩
  intro h
  rcases hps : s.PixelSpacing with _ | ps <;>
    rcases hst : s.SliceThickness with _ | st <;>
      rcases hr : s.Rows with _ | r <;>
        rcases hc : s.Columns with _ | c <;>
          simp_all [MetadataDT]

/-- Witness for C9: a slice with only an acquisition date missing gets the
sentinel for that field alone (the spec's Scenario C). -/
theorem metadata_dt_centinela_witness :
    ∃ m, MetadataDT [{ sliceBase with
        pixel_array := [[0]]
        PatientName := some "X"
        PatientAge := some "040Y"
        PatientSex := some "F"
        Modality := some "CT"
        ManufacturerModelName := some "M"
        PixelSpacing := some (1, 1)
        SliceThickness := some 2
        Rows := some 1
        Columns := some 1 }] = Except.ok m ∧
      m.fecha_adquisicion = none ∧ m.nombre_sujeto = some "X" ∧
      m.tipo_imagen = some "CT" := by
  obtain ⟨m, hm, h2, -, -, h5, h6, -, -, -⟩ :=
    metadata_dt_centinela { sliceBase with
        pixel_array := [[0]]
        PatientName := some "X"
        PatientAge := some "040Y"
        PatientSex := some "F"
        Modality := some "CT"
        ManufacturerModelName := some "M"
        PixelSpacing := some (1, 1)
        SliceThickness := some 2
        Rows := some 1
        Columns := some 1 } []
  exact ⟨m, hm, by rw [h6]; rfl, by rw [h2], by rw [h5]⟩

/-- The slice for the C10 theorem: `PixelSpacing` and `SliceThickness` are
both present, but the thickness is 0, which is falsy in Python. -/
def exC10 : DicomSlice :=
  { sliceBase with
      pixel_array := [[0, 0], [0, 0]]
      PixelSpacing := some (1, 1)
      SliceThickness := some 0
      Rows := some 2
      Columns := some 2 }

/-- C10: availability is tested by truthiness, not attribute presence: a
slice whose `SliceThickness` attribute is present but equal to 0 gets the
unavailable sentinel for the voxel size and, by propagation, for the image
size in mm, even though the thickness field itself is populated. -/
theorem metadata_dt_truthiness :
    exC10.PixelSpacing = some (1, 1) ∧
    exC10.SliceThickness = some 0 ∧
    ∃ m, MetadataDT [exC10] = Except.ok m ∧
      m.espesor_corte = some 0 ∧
      m.tamano_imagen_voxeles = some (2, 2) ∧
      m.tamanoVoxel = none ∧
      m.tamano_imagen_mm = none := by
  have hm : MetadataDT [exC10] = Except.ok
      ⟨none, none, none, none, none, none, some 0, none, some (2, 2),
        none⟩ := by
    norm_num [MetadataDT, exC10, sliceBase]
  exact ⟨rfl, rfl, _, hm, rfl, rfl, rfl, rfl⟩

lemma np_digitize_le_length (x : ℚ) (bins : List ℚ) :
    np_digitize x bins ≤ bins.length :=
  List.countP_le_length _

lemma np_digitize_mono {x y : ℚ} (bins : List ℚ) (hxy : x ≤ y) :
    np_digitize x bins ≤ np_digitize y bins := by
  refine List.countP_mono_left ?_
  intro b _ hb
  simp only [decide_eq_true_eq] at hb ⊢
  exact le_trans hb hxy

lemma threshold_multiotsu_ok_length {img : List (List ℚ)} {k : ℕ}
    {thr : List ℚ} (h : threshold_multiotsu img k = Except.ok thr) :
    thr.length ≤ k - 1 := by
  unfold threshold_multiotsu at h
  by_cases h2 : k < 2
  · rw [if_pos h2] at h; cases h
  · rw [if_neg h2] at h
    by_cases hd : (distinctVals img).length < k
    · rw [if_pos hd] at h; cases h
    · rw [if_neg hd] at h
      obtain rfl : ((distinctVals img).drop 1).take (k - 1) = thr := by
        cases h; rfl
      calc (((distinctVals img).drop 1).take (k - 1)).length
          ≤ k - 1 := by simp [List.length_take]

lemma threshold_multiotsu_ok_of {img : List (List ℚ)} {k : ℕ}
    (h2 : 2 ≤ k) (hd : k ≤ (distinctVals img).length) :
    threshold_multiotsu img k =
      Except.ok (((distinctVals img).drop 1).take (k - 1)) := by
  unfold threshold_multiotsu
  rw [if_neg (by omega), if_neg (by omega)]

lemma otsuSlices_ok_elim {k : ℕ} :
    ∀ (l : List (List (List ℚ))) (out : List (List (List ℕ))),
    otsuSlices k l = Except.ok out →
    out.length = l.length ∧ ∀ i < l.length, ∃ thr,
      threshold_multiotsu (l.getD i []) k = Except.ok thr ∧
      out.getD i [] = (l.getD i []).map (fun row =>
        row.map (fun x => np_digitize x thr))
  | [], out, h => by
    obtain rfl : ([] : List (List (List ℕ))) = out := by
      simpa [otsuSlices] using h
    exact ⟨rfl, by intro i hi; simp at hi⟩
  | imagen :: rest, out, h => by
    cases hthr : threshold_multiotsu imagen k with
    | error e => simp [otsuSlices, hthr] at h
    | ok thr =>
      cases hrec : otsuSlices k rest with
      | error e => simp [otsuSlices, hthr, hrec] at h
      | ok resto =>
        obtain rfl : (imagen.map (fun row =>
            row.map (fun x => np_digitize x thr))) :: resto = out := by
          simpa [otsuSlices, hthr, hrec] using h
        obtain ⟨hlen, hall⟩ := otsuSlices_ok_elim rest resto hrec
        refine ⟨by simpa using hlen, ?_⟩
        intro i hi
        match i with
        | 0 => exact ⟨thr, by simpa using hthr, by simp⟩
        | Nat.succ j =>
          have := hall j (by simpa using hi)
          simpa [List.getD_cons_succ] using this

lemma otsuSlices_ok_of {k : ℕ} :
    ∀ (l : List (List (List ℚ))),
    (∀ img ∈ l, ∃ thr, threshold_multiotsu img k = Except.ok thr) →
    ∃ out, otsuSlices k l = Except.ok out
  | [], _ => ⟨[], rfl⟩
  | imagen :: rest, h => by
    obtain ⟨thr, hthr⟩ := h imagen (List.mem_cons_self imagen rest)
    obtain ⟨resto, hrec⟩ := otsuSlices_ok_of rest
      (fun img him => h img (List.mem_cons_of_mem imagen him))
    exact ⟨(imagen.map (fun row =>
        row.map (fun x => np_digitize x thr))) :: resto,
      by simp [otsuSlices, hthr, hrec]⟩

lemma otsuSlices_degenerate {k : ℕ} (h2 : 2 ≤ k) :
    ∀ (l : List (List (List ℚ))),
    (∃ img ∈ l, (distinctVals img).length < k) →
    otsuSlices k l = Except.error OtsuErr.degenerateHistogram
  | [], hbad => by simp at hbad
  | imagen :: rest, hbad => by
    by_cases hd : (distinctVals imagen).length < k
    · have hthr : threshold_multiotsu imagen k =
          Except.error OtsuErr.degenerateHistogram := by
        unfold threshold_multiotsu
        rw [if_neg (by omega), if_pos hd]
      simp [otsuSlices, hthr]
    · have hthr := @threshold_multiotsu_ok_of imagen k h2 (by omega)
      have hrest : ∃ img ∈ rest, (distinctVals img).length < k := by
        rcases hbad with ⟨img, him, hl⟩
        rcases List.mem_cons.mp him with rfl | him
        · exact absurd hl hd
        · exact ⟨img, him, hl⟩
      have := otsuSlices_degenerate h2 rest hrest
      simp [otsuSlices, hthr, this]

/-- C4: whenever the adaptive segmenter succeeds with class count
`classes ≥ 2`, every voxel's label is an integer in `[0, classes - 1]`
(the lower bound being inherent to ℕ), and within each slice the labels
are monotone in the intensities: a voxel with a smaller or equal intensity
never gets a larger label. -/
theorem segmentar_otsu_etiquetas (volumen : List (List (List ℚ)))
    (classes : ℕ) (seg : List (List (List ℕ)))
    (hk : 2 ≤ classes)
    (hok : Segmentar_Otsu volumen classes = Except.ok seg) :
    seg.length = volumen.length ∧
    (∀ i r c, i < volumen.length → r < (volumen.getD i []).length →
      c < ((volumen.getD i []).getD r []).length →
      ((seg.getD i []).getD r []).getD c 0 ≤ classes - 1) ∧
    (∀ i r c r' c', i < volumen.length →
      r < (volumen.getD i []).length →
      c < ((volumen.getD i []).getD r []).length →
      r' < (volumen.getD i []).length →
      c' < ((volumen.getD i []).getD r' []).length →
      ((volumen.getD i []).getD r []).getD c 0 ≤
        ((volumen.getD i []).getD r' []).getD c' 0 →
      ((seg.getD i []).getD r []).getD c 0 ≤
        ((seg.getD i []).getD r' []).getD c' 0) := by
  obtain ⟨hlen, hall⟩ := otsuSlices_ok_elim volumen seg hok
  refine ⟨hlen, ?_, ?_⟩
  · intro i r c hi hr hc
    obtain ⟨thr, hthr, hseg⟩ := hall i hi
    rw [hseg, getD_map _ _ r hr [] [], getD_map _ _ c hc 0 0]
    exact le_trans (np_digitize_le_length _ thr)
      (threshold_multiotsu_ok_length hthr)
  · intro i r c r' c' hi hr hc hr' hc' hv
    obtain ⟨thr, hthr, hseg⟩ := hall i hi
    rw [hseg, getD_map _ _ r hr [] [], getD_map _ _ c hc 0 0,
      getD_map _ _ r' hr' [] [], getD_map _ _ c' hc' 0 0]
    exact np_digitize_mono thr hv

/-- Witness for C4 at a concrete input: one 2×2 slice with 4 distinct
values segmented into 2 classes. -/
theorem segmentar_otsu_etiquetas_witness :
    ∃ seg, Segmentar_Otsu [[[0, 1], [2, 3]]] 2 = Except.ok seg ∧
      ((seg.getD 0 []).getD 1 []).getD 1 0 ≤ 1 := by
  have hok : Segmentar_Otsu [[[0, 1], [2, 3]]] 2 =
      Except.ok [[[0, 1], [1, 1]]] := by decide
  have h := segmentar_otsu_etiquetas [[[0, 1], [2, 3]]] 2 [[[0, 1], [1, 1]]]
    (by norm_num) hok
  have hb := h.2.1 0 1 1 (by norm_num) (by norm_num) (by norm_num)
  exact ⟨_, hok, hb⟩

/-- C8: with a non-empty volume, the adaptive segmenter fails with
`InvalidClassCount` whenever `classes < 2`; with `classes ≥ 2` it fails
with `DegenerateHistogram` whenever some slice has fewer than `classes`
distinct intensity values, and succeeds whenever every slice has at least
`classes` distinct values. -/
theorem segmentar_otsu_fallos (volumen : List (List (List ℚ)))
    (classes : ℕ) (hne : volumen ≠ []) :
    (classes < 2 → Segmentar_Otsu volumen classes =
      Except.error OtsuErr.invalidClassCount) ∧
    (2 ≤ classes →
      (∃ img ∈ volumen, (distinctVals img).length < classes) →
      Segmentar_Otsu volumen classes =
        Except.error OtsuErr.degenerateHistogram) ∧
    (2 ≤ classes →
      (∀ img ∈ volumen, classes ≤ (distinctVals img).length) →
      ∃ seg, Segmentar_Otsu volumen classes = Except.ok seg) := by
  refine ⟨?_, ?_, ?_⟩
  · intro hklt
    cases volumen with
    | nil => exact absurd rfl hne
    | cons imagen rest =>
      have hthr : threshold_multiotsu imagen classes =
          Except.error OtsuErr.invalidClassCount := by
        unfold threshold_multiotsu
        rw [if_pos hklt]
      simp [Segmentar_Otsu, otsuSlices, hthr]
  · intro hk hbad
    exact otsuSlices_degenerate hk volumen hbad
  · intro hk hall
    exact otsuSlices_ok_of volumen
      (fun img him => ⟨_, threshold_multiotsu_ok_of hk (hall img him)⟩)

/-- Witness for C8 at concrete inputs: class count 1 is rejected, a
constant slice cannot be split into 2 classes, and a slice with 2
distinct values can. -/
theorem segmentar_otsu_fallos_witness :
    Segmentar_Otsu [[[0, 1]]] 1 =
      Except.error OtsuErr.invalidClassCount ∧
    Segmentar_Otsu [[[5]]] 2 =
      Except.error OtsuErr.degenerateHistogram ∧
    ∃ seg, Segmentar_Otsu [[[0, 1]]] 2 = Except.ok seg := by
  refine ⟨(segmentar_otsu_fallos [[[0, 1]]] 1 (by decide)).1 (by norm_num),
    (segmentar_otsu_fallos [[[5]]] 2 (by decide)).2.1 (by norm_num)
      ⟨[[5]], by decide, by decide⟩,
    (segmentar_otsu_fallos [[[0, 1]]] 2 (by decide)).2.2 (by norm_num)
      (by decide)⟩
